import Mathlib

/-!
Shallow embedding of the otelchi HTTP instrumentation middleware
(`config.go` and the middleware file containing `Middleware`, `getRRW`,
`ServeHTTP` and `addPrefixToSpanName`).

Modelling choices:
* The downstream handler is modelled by the sequence of writer actions it
  performs on the response writer it is handed, whether it panics at the
  end instead of returning, and the route pattern that the router's
  per-request routing context holds after dispatch
  (`chi.RouteContext(r.Context()).RoutePattern()`).
* `ServeHTTP` is embedded as a function producing the ordered trace of
  observable effects (metrics recordings, span operations, dispatch).
  Go `defer` semantics are embedded faithfully: deferred calls run in LIFO
  order on every exit path, including the panicking one, and evaluate their
  arguments at registration time (so the deferred in-flight decrement
  captures the `props` struct value as it was before `props.Code` is
  reassigned after dispatch).
* External collaborators (tracer/meter providers, propagator, the semconv
  helpers) are out of the repository; span status classification is
  modelled by recording which numeric status code is handed to
  `semconv.SpanStatusFromHTTPStatusCode` (event `setSpanStatusFromCode`).
* Machine integers (`int`, `int64`) are modelled as `Int`; overflow is
  irrelevant at the magnitudes involved in the claims.
-/

namespace Otelchi

/-- An inbound HTTP request, reduced to the fields the middleware reads:
`r.Method` and `r.URL.Path`. -/
structure Request where
  method : String
  urlPath : String
deriving DecidableEq, Repr

/-- An action the downstream handler performs on its response writer:
a body write of `len` bytes (`Write(b)` with `len(b) = len`) or an explicit
status write (`WriteHeader(statusCode)`). -/
inductive WriterAction where
  | write (len : Nat)
  | writeHeader (statusCode : Int)
deriving DecidableEq, Repr

/-- The mutable state of `recordingResponseWriter` (middleware file,
lines 80-85): `written`, `writtenBytes` (an `int64`) and `status`
(an `int`). The bound `writer` is not part of the observable state. -/
structure RecordingResponseWriter where
  written : Bool
  writtenBytes : Int
  status : Int
deriving DecidableEq, Repr

/-- The reset performed by `getRRW` on acquisition (lines 95-97):
`written = false`, `writtenBytes = 0`, `status = 0`. -/
def rrwInit : RecordingResponseWriter :=
  { written := false, writtenBytes := 0, status := 0 }

/-- One interception hook step of the wrapped writer installed by `getRRW`
(lines 98-118).  `Write` (lines 99-108): if `!rrw.written`, set
`written = true`, add `int64(len(b))` to `writtenBytes` and set
`status = http.StatusOK` (200); the accumulation sits inside the guard in
the source.  `WriteHeader` (lines 109-117): if `!rrw.written`, set
`written = true` and `status = statusCode`.  Both hooks always pass the
call through to the real writer, which does not change this state. -/
def rrwStep (rrw : RecordingResponseWriter) : WriterAction → RecordingResponseWriter
  | WriterAction.write len =>
      if !rrw.written then
        { rrw with written := true, writtenBytes := rrw.writtenBytes + (len : Int), status := 200 }
      else rrw
  | WriterAction.writeHeader statusCode =>
      if !rrw.written then
        { rrw with written := true, status := statusCode }
      else rrw

/-- The recording writer state after the handler performed `acts`,
starting from the freshly reset state. -/
def rrwRun (acts : List WriterAction) : RecordingResponseWriter :=
  acts.foldl rrwStep rrwInit

/-- The status recorded by the writer as a function of the first action
only (derived characterisation, compared against `rrwRun`). -/
def statusOfFirst (acts : List WriterAction) : Int :=
  match acts with
  | [] => 0
  | WriterAction.write _ :: _ => 200
  | WriterAction.writeHeader c :: _ => c

/-- `httpReqProperties`, the metrics label set `{Service, ID, Method, Code}`
used by the metrics recorder.  The struct literal in `ServeHTTP` (lines
156-160) leaves `Code` at the Go zero value 0. -/
structure HttpReqProperties where
  Service : String
  ID : String
  Method : String
  Code : Int
deriving DecidableEq, Repr

/-- The downstream handler as the middleware observes it: the writer
actions it performs, whether it panics after them instead of returning,
and the route pattern the router's per-request routing context reports
after dispatch (`chi.RouteContext(r.Context()).RoutePattern()`, line 199). -/
structure Handler where
  actions : List WriterAction
  panics : Bool
  routedPattern : String
deriving DecidableEq, Repr

/-- The `otelware` struct (lines 66-78) restricted to the fields that
influence the observable behaviour modelled here.  The tracer, meter,
recorder, propagators and wrapped handler are external capabilities; the
route table `chiRoutes` is modelled by its `Match` interface: given method
and path it returns `some pattern` when `Match` succeeds (the pattern being
`rctx.RoutePattern()`) and `none` when it fails.  Note the source struct
has no trace-response-header field. -/
structure Otelware where
  serverName : String
  chiRoutes : Option (String → String → Option String)
  reqMethodInSpanName : Bool
  filter : Option (Request → Bool)
  disableMeasureInflight : Bool
  disableMeasureSize : Bool

/-- The `config` struct from `config.go` (lines 13-23), restricted to the
fields carried into behaviour modelled here, plus `TraceResponseHeaderKey`
(line 22).  Provider/propagator fields are external capabilities. -/
structure Config where
  ChiRoutes : Option (String → String → Option String)
  RequestMethodInSpanName : Bool
  Filter : Option (Request → Bool)
  DisableMeasureInflight : Bool
  DisableMeasureSize : Bool
  TraceResponseHeaderKey : String

/-- `WithTraceResponseHeaderKey` (config.go lines 108-112): sets
`cfg.TraceResponseHeaderKey = name`. -/
def withTraceResponseHeaderKey (name : String) (cfg : Config) : Config :=
  { cfg with TraceResponseHeaderKey := name }

/-- The `otelware` value built by `Middleware` (middleware file lines
49-62) from the resolved config.  Faithfully to the source, the struct
literal does not carry `TraceResponseHeaderKey`: no field of `otelware`
receives it. -/
def middlewareOtelware (serverName : String) (cfg : Config) : Otelware :=
  { serverName := serverName
    chiRoutes := cfg.ChiRoutes
    reqMethodInSpanName := cfg.RequestMethodInSpanName
    filter := cfg.Filter
    disableMeasureInflight := cfg.DisableMeasureInflight
    disableMeasureSize := cfg.DisableMeasureSize }

/-- `addPrefixToSpanName` (lines 216-227): an empty span name is normalised
to `/`; then, when `shouldAdd` holds and the name is non-empty, the method
string and a space are prepended. -/
def addPrefixToSpanName (shouldAdd : Bool) (pre spanName : String) : String :=
  let spanName := if spanName = "" then "/" else spanName
  if shouldAdd ∧ 0 < spanName.length then pre ++ " " ++ spanName else spanName

/-- An observable effect of one `ServeHTTP` execution. `setResponseHeader`
models a write into the outbound response headers; the source of
`ServeHTTP` performs none, so the embedding never emits it (it exists so
its absence is expressible). `setSpanStatusFromCode code` models
`span.SetStatus(semconv.SpanStatusFromHTTPStatusCode(code))` (lines
212-213), recording which numeric code the external classification is
derived from. -/
inductive Event where
  | dispatchRaw
  | dispatchWrapped
  | inflight (props : HttpReqProperties) (delta : Int)
  | spanStart (name : String)
  | spanEnd
  | recordDuration (props : HttpReqProperties)
  | recordSize (props : HttpReqProperties) (bytes : Int)
  | setRouteAttr (pattern : String)
  | setSpanName (name : String)
  | setStatusAttr (code : Int)
  | setSpanStatusFromCode (code : Int)
  | setResponseHeader (key value : String)
deriving DecidableEq, Repr

/-- Filter acceptance (line 131): the request is instrumented unless a
filter is configured and returns false. -/
def accepts (ow : Otelware) (r : Request) : Bool :=
  match ow.filter with
  | none => true
  | some f => f r

/-- Pre-dispatch route resolution (lines 148-154): `some p` when a route
table is configured and `Match(rctx, r.Method, r.URL.Path)` succeeds with
pattern `p`; `none` when there is no table or the match fails. -/
def routeMatch (ow : Otelware) (r : Request) : Option String :=
  match ow.chiRoutes with
  | none => none
  | some tbl => tbl r.method r.urlPath

/-- The `routePattern` local after lines 147-154: the matched pattern, or
`""` when no table is configured or the match fails. -/
def prePattern (ow : Otelware) (r : Request) : String :=
  match routeMatch ow r with
  | none => ""
  | some p => p

/-- The `spanName` local after lines 146-154: on a successful match it is
`addPrefixToSpanName(reqMethodInSpanName, r.Method, routePattern)`,
otherwise it stays `""`. -/
def preSpanName (ow : Otelware) (r : Request) : String :=
  match routeMatch ow r with
  | none => ""
  | some p => addPrefixToSpanName ow.reqMethodInSpanName r.method p

/-- The `props` local built at lines 156-163: `Service`, `ID` (the matched
pattern, falling back to the literal path when the pattern is empty),
`Method`, and `Code` left at 0. -/
def initProps (ow : Otelware) (r : Request) : HttpReqProperties :=
  { Service := ow.serverName
    ID := if prePattern ow r = "" then r.urlPath else prePattern ow r
    Method := r.method
    Code := 0 }

/-- The effects of the post-dispatch section of `ServeHTTP` on the normal
return path (lines 190-213): `props.Code = rrw.status`; duration recording;
size recording unless disabled; when the pattern was not pre-resolved,
fetch it from the routing context, set the route attribute, recompute and
set the span name; set the status-code attribute only when
`rrw.status > 0`; derive the span status from `rrw.status`. -/
def postDispatchEvents (ow : Otelware) (r : Request) (h : Handler) : List Event :=
  [Event.recordDuration { initProps ow r with Code := (rrwRun h.actions).status }]
  ++ (if ow.disableMeasureSize then []
      else [Event.recordSize { initProps ow r with Code := (rrwRun h.actions).status }
              (rrwRun h.actions).writtenBytes])
  ++ (if prePattern ow r = "" then
        [Event.setRouteAttr h.routedPattern,
         Event.setSpanName (addPrefixToSpanName ow.reqMethodInSpanName r.method h.routedPattern)]
      else [])
  ++ (if 0 < (rrwRun h.actions).status then [Event.setStatusAttr (rrwRun h.actions).status] else [])
  ++ [Event.setSpanStatusFromCode (rrwRun h.actions).status]

/-- The effect trace of the instrumented path of `ServeHTTP` (lines
136-214).  In order: in-flight increment (line 166, unless disabled), span
start (lines 170-176), dispatch through the wrapped writer (line 186),
then — only when the handler returns normally — the post-dispatch section;
finally the deferred calls in LIFO order on every exit path: `putRRW`
(no observable effect), `span.End()`, and the in-flight decrement whose
`props` argument was evaluated at `defer` registration time (line 167),
i.e. with `Code` still 0. -/
def instrumentedTrace (ow : Otelware) (r : Request) (h : Handler) : List Event :=
  (if ow.disableMeasureInflight then [] else [Event.inflight (initProps ow r) 1])
  ++ [Event.spanStart (preSpanName ow r), Event.dispatchWrapped]
  ++ (if h.panics then [] else postDispatchEvents ow r h)
  ++ [Event.spanEnd]
  ++ (if ow.disableMeasureInflight then [] else [Event.inflight (initProps ow r) (-1)])

/-- `ServeHTTP` (lines 129-214) as an effect trace.  When the filter
rejects the request (lines 130-134) the only effect is forwarding it to
the downstream handler with the original, unwrapped writer and the
unmodified request (`dispatchRaw`); otherwise the instrumented trace. -/
def serveHTTP (ow : Otelware) (r : Request) (h : Handler) : List Event :=
  if accepts ow r then instrumentedTrace ow r h else [Event.dispatchRaw]

/-- The metrics label set carried by an event, when it carries one. -/
def eventProps : Event → Option HttpReqProperties
  | Event.inflight p _ => some p
  | Event.recordDuration p => some p
  | Event.recordSize p _ => some p
  | _ => none

/-- The in-flight delta carried by an event, when it is an in-flight
recording. -/
def inflightDelta : Event → Option Int
  | Event.inflight _ d => some d
  | _ => none

/-- The sequence of in-flight deltas recorded along a trace. -/
def inflightDeltas (l : List Event) : List Int :=
  l.filterMap inflightDelta

/-- The net in-flight count after a trace (sum of recorded deltas). -/
def inflightSum (l : List Event) : Int :=
  (inflightDeltas l).sum

/-- The label set and delta carried by an in-flight recording event. -/
def inflightPair : Event → Option (HttpReqProperties × Int)
  | Event.inflight q d => some (q, d)
  | _ => none

/-- The sequence of in-flight recordings (label set and delta) along a
trace. -/
def inflightEvents (l : List Event) : List (HttpReqProperties × Int) :=
  l.filterMap inflightPair

/-- Whether an event is a span opening. -/
def isSpanStartEv : Event → Bool
  | Event.spanStart _ => true
  | _ => false

/-- Whether an event is a span closing. -/
def isSpanEndEv : Event → Bool
  | Event.spanEnd => true
  | _ => false

/-- Whether an event is a status-code attribute assignment. -/
def isStatusAttrEv : Event → Bool
  | Event.setStatusAttr _ => true
  | _ => false

/-- Whether an event writes a response header. -/
def isRespHeaderEv : Event → Bool
  | Event.setResponseHeader _ _ => true
  | _ => false

/-! Concrete fixtures used to evaluate the model on closed inputs. -/

/-- A config with every optional field unset, as `Middleware` builds it
when no options are passed. -/
def cfg0 : Config :=
  { ChiRoutes := none
    RequestMethodInSpanName := false
    Filter := none
    DisableMeasureInflight := false
    DisableMeasureSize := false
    TraceResponseHeaderKey := "" }

/-- A plain middleware instance: no filter, no route table, nothing
disabled. -/
def owPlain : Otelware := middlewareOtelware "srv" cfg0

/-- A middleware instance whose filter rejects exactly the path "/health". -/
def owFiltered : Otelware :=
  { owPlain with filter := some (fun r => !(r.urlPath = "/health")) }

/-- A route table matching GET "/users/42" to the pattern "/users/{id}". -/
def usersTable : String → String → Option String :=
  fun m p => if m = "GET" ∧ p = "/users/42" then some "/users/{id}" else none

/-- A middleware instance configured with `usersTable` and the
method-in-span-name toggle enabled. -/
def owRouted : Otelware :=
  { owPlain with chiRoutes := some usersTable, reqMethodInSpanName := true }

/-- A GET request for "/users/42". -/
def reqUsers : Request := { method := "GET", urlPath := "/users/42" }

/-- A GET request for "/health". -/
def reqHealth : Request := { method := "GET", urlPath := "/health" }

/-- A handler writing two body chunks of 3 and 4 bytes and returning
normally; the router resolves its pattern to "/users/{id}". -/
def hTwoWrites : Handler :=
  { actions := [WriterAction.write 3, WriterAction.write 4]
    panics := false
    routedPattern := "/users/{id}" }

/-- A handler that writes nothing and returns normally; the router
resolves its pattern to "/health". -/
def hSilent : Handler :=
  { actions := [], panics := false, routedPattern := "/health" }

/-- A handler that writes one 5-byte chunk and then panics. -/
def hPanics : Handler :=
  { actions := [WriterAction.write 5], panics := true, routedPattern := "/x" }

/-! Helper lemmas about the recording response writer. -/

/-- Once the `written` flag is set, a hook invocation leaves the recorded
state unchanged. -/
theorem rrwStep_of_written (s : RecordingResponseWriter) (a : WriterAction)
    (hs : s.written = true) : rrwStep s a = s := by
  cases a <;> simp [rrwStep, hs]

/-- Once the `written` flag is set, any further sequence of hook
invocations leaves the recorded state unchanged. -/
theorem rrwFoldl_of_written (s : RecordingResponseWriter) (l : List WriterAction)
    (hs : s.written = true) : l.foldl rrwStep s = s := by
  induction l with
  | nil => rfl
  | cons a l ih => rw [List.foldl_cons, rrwStep_of_written s a hs, ih]

/-- Any first hook invocation from the reset state sets the `written`
flag. -/
theorem rrwStep_init_written (a : WriterAction) :
    (rrwStep rrwInit a).written = true := by
  cases a <;> simp [rrwStep, rrwInit]

/-- The recorded state after a non-empty action sequence is decided by the
first action alone. -/
theorem rrwRun_cons (a : WriterAction) (rest : List WriterAction) :
    rrwRun (a :: rest) = rrwStep rrwInit a := by
  rw [rrwRun, List.foldl_cons, rrwFoldl_of_written _ _ (rrwStep_init_written a)]

/-- On an accepted request `ServeHTTP` produces the instrumented trace. -/
theorem serveHTTP_accepted (ow : Otelware) (r : Request) (h : Handler)
    (hacc : accepts ow r = true) :
    serveHTTP ow r h = instrumentedTrace ow r h := by
  simp [serveHTTP, hacc]

/-- The post-dispatch section records no in-flight deltas. -/
theorem inflightDeltas_postDispatch (ow : Otelware) (r : Request) (h : Handler) :
    inflightDeltas (postDispatchEvents ow r h) = [] := by
  simp only [postDispatchEvents, inflightDeltas, List.filterMap_append]
  split_ifs <;> simp [inflightDelta]

/-- No in-flight event occurs in the post-dispatch section. -/
theorem inflight_not_mem_postDispatch (ow : Otelware) (r : Request) (h : Handler)
    (q : HttpReqProperties) (d : Int) :
    Event.inflight q d ∉ postDispatchEvents ow r h := by
  simp only [postDispatchEvents, List.mem_append]
  split_ifs <;> simp

/-- A list summing with a remainder to the delta sequence `[1, -1]` has a
non-negative sum: the running in-flight count never dips below zero. -/
theorem sum_nonneg_of_append_eq_one_negone (l l' : List Int)
    (hl : l ++ l' = [1, -1]) : 0 ≤ l.sum := by
  rcases l with _ | ⟨a, _ | ⟨b, rest⟩⟩ <;> simp_all [List.cons.injEq]

/-- A non-empty string has positive length. -/
theorem string_length_pos_of_ne (p : String) (hp : p ≠ "") : 0 < p.length := by
  rcases p with ⟨cs⟩
  cases cs with
  | nil => exact absurd rfl hp
  | cons c cs => simp [String.length]

/-- On a non-empty span name, `addPrefixToSpanName` yields the name itself,
method-prefixed exactly when the toggle is on. -/
theorem addPrefixToSpanName_of_ne (b : Bool) (m p : String) (hp : p ≠ "") :
    addPrefixToSpanName b m p = if b then m ++ " " ++ p else p := by
  unfold addPrefixToSpanName
  rw [if_neg hp]
  cases b
  · simp
  · simp [string_length_pos_of_ne p hp]

/-- Every metrics label set attached to an event of the instrumented trace
carries the identifier chosen before dispatch (`initProps`): the in-flight
events carry `initProps` itself and the duration/size events differ from it
only in `Code`. -/
theorem eventProps_ID (ow : Otelware) (r : Request) (h : Handler) :
    ∀ e ∈ instrumentedTrace ow r h, ∀ q, eventProps e = some q →
      q.ID = (initProps ow r).ID := by
  simp only [instrumentedTrace, postDispatchEvents, List.forall_mem_append]
  split_ifs <;> simp_all [List.forall_mem_cons, eventProps]

/-- C6: the written flag is set exactly when the handler performed at least
one writer action, and it transitions at most once: the recorded status is
decided by whichever action came first — a first body write records the
default success status 200, a first explicit status write records its
argument, and every later action (second status writes included) leaves the
recorded state unchanged. -/
theorem C6_written_flag_and_status_first_action_wins (acts : List WriterAction) :
    ((rrwRun acts).written = !acts.isEmpty)
    ∧ ((rrwRun acts).status = statusOfFirst acts)
    ∧ ∀ a rest, rrwRun (a :: rest) = rrwStep rrwInit a := by
  refine ⟨?_, ?_, fun a rest => rrwRun_cons a rest⟩
  · cases acts with
    | nil => simp [rrwRun, rrwInit]
    | cons a rest =>
      rw [rrwRun_cons]
      cases a <;> simp [rrwStep, rrwInit]
  · cases acts with
    | nil => simp [rrwRun, rrwInit, statusOfFirst]
    | cons a rest =>
      rw [rrwRun_cons]
      cases a <;> simp [rrwStep, rrwInit, statusOfFirst]

/-- C1: evaluation of the code at a failing input.  A handler performing
two body writes of 3 and 4 bytes ends with `writtenBytes = 3`, and the
value handed to the size recording is 3, not the claimed sum 7: the
accumulation statement sits inside the once-only `!rrw.written` guard, so
only the first body write is counted.  Moreover, when an explicit status
write comes first, a later body write contributes nothing at all. -/
theorem C1_size_recording_counts_only_first_write :
    (rrwRun [WriterAction.write 3, WriterAction.write 4]).writtenBytes = 3
    ∧ (3 : Int) ≠ 3 + 4
    ∧ Event.recordSize { Service := "srv", ID := "/users/42", Method := "GET", Code := 200 } 3
        ∈ serveHTTP owPlain reqUsers hTwoWrites
    ∧ (rrwRun [WriterAction.writeHeader 201, WriterAction.write 7]).writtenBytes = 0 := by
  decide

/-- C2: evaluation of the code at a failing input.  Configuring the trace
response header key sets the config field, but the `otelware` value built
by `Middleware` does not carry it and `ServeHTTP` performs no response
header write at all: with the key configured as "X-Trace-Id", the complete
effect trace of a request (normal or panicking) contains no response
header write. -/
theorem C2_trace_response_header_never_written :
    (withTraceResponseHeaderKey "X-Trace-Id" cfg0).TraceResponseHeaderKey = "X-Trace-Id"
    ∧ (serveHTTP (middlewareOtelware "srv" (withTraceResponseHeaderKey "X-Trace-Id" cfg0))
        reqUsers hTwoWrites).all (fun e => !isRespHeaderEv e) = true
    ∧ (serveHTTP (middlewareOtelware "srv" (withTraceResponseHeaderKey "X-Trace-Id" cfg0))
        reqHealth hPanics).all (fun e => !isRespHeaderEv e) = true := by
  decide

/-- C3 counterexample: a request accepted by the filter whose handler never
writes anything has recorded status 0, and the effect trace contains no
status-code attribute assignment at all — the claim that the recorded
status (0 in this case) is set as the HTTP status-code span attribute is
false at this input. -/
theorem C3_cex_status_zero_attribute_not_set :
    accepts owPlain reqHealth = true
    ∧ (rrwRun hSilent.actions).status = 0
    ∧ (serveHTTP owPlain reqHealth hSilent).all (fun e => !isStatusAttrEv e) = true := by
  decide

/-- C3 (amended): for every request accepted by the filter whose handler
returns normally, the recorded response status is set as the HTTP
status-code span attribute when it is positive; when the handler never
wrote anything (recorded status 0) no status-code attribute is set; and in
every case the span status classification is derived from the recorded
numeric status code. -/
theorem C3_status_attribute_and_span_status (ow : Otelware) (r : Request) (h : Handler)
    (hacc : accepts ow r = true) (hnp : h.panics = false) :
    (0 < (rrwRun h.actions).status →
        Event.setStatusAttr ((rrwRun h.actions).status) ∈ serveHTTP ow r h)
    ∧ ((rrwRun h.actions).status ≤ 0 →
        ∀ c, Event.setStatusAttr c ∉ serveHTTP ow r h)
    ∧ Event.setSpanStatusFromCode ((rrwRun h.actions).status) ∈ serveHTTP ow r h := by
  rw [serveHTTP_accepted ow r h hacc]
  refine ⟨?_, ?_, ?_⟩
  · intro hpos
    simp only [instrumentedTrace, postDispatchEvents, hnp, List.mem_append]
    split_ifs <;> simp_all
  · intro hle c
    simp only [instrumentedTrace, postDispatchEvents, hnp, List.mem_append]
    split_ifs <;> simp_all <;> omega
  · simp only [instrumentedTrace, postDispatchEvents, hnp, List.mem_append]
    split_ifs <;> simp_all

/-- C3 witness: concrete instantiation — a handler that wrote a body has
recorded status 200, and the status attribute and derived span status both
appear in the trace. -/
theorem C3_status_attribute_witness :
    accepts owPlain reqUsers = true
    ∧ hTwoWrites.panics = false
    ∧ (0 < (rrwRun hTwoWrites.actions).status →
        Event.setStatusAttr ((rrwRun hTwoWrites.actions).status)
          ∈ serveHTTP owPlain reqUsers hTwoWrites) :=
  ⟨by decide, by decide,
    (C3_status_attribute_and_span_status owPlain reqUsers hTwoWrites
      (by decide) (by decide)).1⟩

/-- C4: for every request accepted by the filter with in-flight measurement
enabled (handler panicking or not), the recorded in-flight deltas are
exactly `[1, -1]`, the increment precedes dispatch and the decrement
follows it, the net in-flight count is zero, and no point of the trace has
a negative running count. -/
theorem C4_inflight_increment_decrement_net_zero (ow : Otelware) (r : Request) (h : Handler)
    (hacc : accepts ow r = true) (hin : ow.disableMeasureInflight = false) :
    inflightDeltas (serveHTTP ow r h) = [1, -1]
    ∧ (∃ pre post, serveHTTP ow r h = pre ++ Event.dispatchWrapped :: post
        ∧ inflightDeltas pre = [1] ∧ inflightDeltas post = [-1])
    ∧ inflightSum (serveHTTP ow r h) = 0
    ∧ ∀ pre suf, serveHTTP ow r h = pre ++ suf → 0 ≤ inflightSum pre := by
  rw [serveHTTP_accepted ow r h hacc]
  have hpost : List.filterMap inflightDelta (postDispatchEvents ow r h) = [] :=
    inflightDeltas_postDispatch ow r h
  have hdeltas : inflightDeltas (instrumentedTrace ow r h) = [1, -1] := by
    simp only [instrumentedTrace, hin, inflightDeltas, List.filterMap_append]
    split_ifs <;> simp_all [inflightDelta]
  refine ⟨hdeltas, ?_, ?_, ?_⟩
  · refine ⟨[Event.inflight (initProps ow r) 1, Event.spanStart (preSpanName ow r)],
      (if h.panics then [] else postDispatchEvents ow r h)
        ++ [Event.spanEnd] ++ [Event.inflight (initProps ow r) (-1)], ?_, ?_, ?_⟩
    · simp [instrumentedTrace, hin]
    · simp [inflightDeltas, inflightDelta]
    · simp only [inflightDeltas, List.filterMap_append]
      split_ifs <;> simp_all [inflightDelta]
  · simp [inflightSum, hdeltas]
  · intro pre suf heq
    have hsplit : inflightDeltas pre ++ inflightDeltas suf = [1, -1] := by
      have : inflightDeltas (pre ++ suf) = inflightDeltas pre ++ inflightDeltas suf := by
        simp [inflightDeltas]
      rw [← this, ← heq, hdeltas]
    exact sum_nonneg_of_append_eq_one_negone _ _ hsplit

/-- C4 witness: concrete instantiation — even for a panicking handler the
recorded in-flight deltas are exactly `[1, -1]`. -/
theorem C4_inflight_witness :
    accepts owPlain reqHealth = true
    ∧ owPlain.disableMeasureInflight = false
    ∧ inflightDeltas (serveHTTP owPlain reqHealth hPanics) = [1, -1] :=
  ⟨by decide, by decide,
    (C4_inflight_increment_decrement_net_zero owPlain reqHealth hPanics
      (by decide) (by decide)).1⟩

/-- C5: for every request accepted by the filter, the trace contains
exactly one span opening and exactly one span closing, whether or not the
handler panics. -/
theorem C5_one_span_start_one_span_end (ow : Otelware) (r : Request) (h : Handler)
    (hacc : accepts ow r = true) :
    ((serveHTTP ow r h).countP isSpanStartEv = 1)
    ∧ ((serveHTTP ow r h).countP isSpanEndEv = 1) := by
  rw [serveHTTP_accepted ow r h hacc]
  simp only [instrumentedTrace, postDispatchEvents]
  split_ifs <;>
    simp [List.countP_append, List.countP_cons, isSpanStartEv, isSpanEndEv]

/-- C5 witness: concrete instantiation — a panicking handler still yields
exactly one span opening. -/
theorem C5_one_span_witness :
    accepts owPlain reqHealth = true
    ∧ (serveHTTP owPlain reqHealth hPanics).countP isSpanStartEv = 1 :=
  ⟨by decide, (C5_one_span_start_one_span_end owPlain reqHealth hPanics (by decide)).1⟩

/-- C7: when the configured filter rejects a request, the whole effect of
`ServeHTTP` is forwarding the request to the downstream handler with the
original writer and unmodified request: no span, no metrics, no response
wrapping. -/
theorem C7_filter_false_bypasses_instrumentation (ow : Otelware) (r : Request) (h : Handler)
    (f : Request → Bool) (hf : ow.filter = some f) (hfr : f r = false) :
    serveHTTP ow r h = [Event.dispatchRaw] := by
  simp [serveHTTP, accepts, hf, hfr]

/-- C7 witness: concrete instantiation — the health-check filter rejects
"/health" and the trace is the bare forwarding event. -/
theorem C7_filter_witness :
    owFiltered.filter = some (fun r => !(r.urlPath = "/health"))
    ∧ (fun (r : Request) => !(r.urlPath = "/health")) reqHealth = false
    ∧ serveHTTP owFiltered reqHealth hSilent = [Event.dispatchRaw] :=
  ⟨rfl, by decide,
    C7_filter_false_bypasses_instrumentation owFiltered reqHealth hSilent
      (fun r => !(r.urlPath = "/health")) rfl (by decide)⟩

/-- C8: for every request accepted by the filter, when the configured route
table matches the request's method and path with a non-empty pattern, the
span is opened under that pattern as its name — method-prefixed exactly
when the toggle is on — the post-dispatch renaming never happens, and every
metrics label set recorded for the request carries the pattern as its
identifier. -/
theorem C8_matched_pattern_names_span_and_metrics (ow : Otelware) (r : Request) (h : Handler)
    (tbl : String → String → Option String) (p : String)
    (hacc : accepts ow r = true) (hroutes : ow.chiRoutes = some tbl)
    (hmatch : tbl r.method r.urlPath = some p) (hne : p ≠ "") :
    Event.spanStart (if ow.reqMethodInSpanName then r.method ++ " " ++ p else p)
      ∈ serveHTTP ow r h
    ∧ (∀ n, Event.setSpanName n ∉ serveHTTP ow r h)
    ∧ (∀ e ∈ serveHTTP ow r h, ∀ q, eventProps e = some q → q.ID = p) := by
  have hrm : routeMatch ow r = some p := by simp [routeMatch, hroutes, hmatch]
  have hpre : prePattern ow r = p := by simp [prePattern, hrm]
  have hname : preSpanName ow r
      = if ow.reqMethodInSpanName then r.method ++ " " ++ p else p := by
    simp [preSpanName, hrm, addPrefixToSpanName_of_ne _ _ _ hne]
  rw [serveHTTP_accepted ow r h hacc]
  refine ⟨?_, ?_, ?_⟩
  · simp [instrumentedTrace, hname]
  · intro n
    simp only [instrumentedTrace, postDispatchEvents, hpre, List.mem_append]
    split_ifs <;> simp_all
  · intro e he q hq
    rw [eventProps_ID ow r h e he q hq]
    simp [initProps, hpre, hne]

/-- C8 witness: concrete instantiation — request GET /users/42 against a
table registering the pattern /users/\x7bid\x7d opens the span under the
method-prefixed pattern. -/
theorem C8_matched_pattern_witness :
    accepts owRouted reqUsers = true
    ∧ owRouted.chiRoutes = some usersTable
    ∧ usersTable reqUsers.method reqUsers.urlPath = some "/users/{id}"
    ∧ "/users/{id}" ≠ ""
    ∧ Event.spanStart (if owRouted.reqMethodInSpanName then
          reqUsers.method ++ " " ++ "/users/{id}" else "/users/{id}")
        ∈ serveHTTP owRouted reqUsers hTwoWrites :=
  ⟨by decide, rfl, by decide, by decide,
    (C8_matched_pattern_names_span_and_metrics owRouted reqUsers hTwoWrites
      usersTable "/users/{id}" (by decide) rfl (by decide) (by decide)).1⟩

/-- C9: for every request accepted by the filter on which pre-dispatch
route resolution fails (no table, or no match), every metrics label set —
in particular the pre-dispatch in-flight recording — carries the literal
request path as identifier, and on normal return the pattern fetched from
the router's per-request routing context is set as the span's route
attribute and used to compute the final span name. -/
theorem C9_fallback_path_and_post_dispatch_route (ow : Otelware) (r : Request) (h : Handler)
    (hacc : accepts ow r = true) (hnone : routeMatch ow r = none)
    (hnp : h.panics = false) :
    (∀ e ∈ serveHTTP ow r h, ∀ q, eventProps e = some q → q.ID = r.urlPath)
    ∧ Event.setRouteAttr h.routedPattern ∈ serveHTTP ow r h
    ∧ Event.setSpanName (addPrefixToSpanName ow.reqMethodInSpanName r.method h.routedPattern)
        ∈ serveHTTP ow r h := by
  have hpre : prePattern ow r = "" := by simp [prePattern, hnone]
  rw [serveHTTP_accepted ow r h hacc]
  refine ⟨?_, ?_, ?_⟩
  · intro e he q hq
    rw [eventProps_ID ow r h e he q hq]
    simp [initProps, hpre]
  · simp only [instrumentedTrace, postDispatchEvents, hpre, hnp, List.mem_append]
    split_ifs <;> simp_all
  · simp only [instrumentedTrace, postDispatchEvents, hpre, hnp, List.mem_append]
    split_ifs <;> simp_all

/-- C9 witness: concrete instantiation — with no route table configured,
the route attribute set after dispatch is the router-resolved pattern. -/
theorem C9_fallback_witness :
    accepts owPlain reqHealth = true
    ∧ routeMatch owPlain reqHealth = none
    ∧ hSilent.panics = false
    ∧ Event.setRouteAttr hSilent.routedPattern ∈ serveHTTP owPlain reqHealth hSilent :=
  ⟨by decide, rfl, rfl,
    (C9_fallback_path_and_post_dispatch_route owPlain reqHealth hSilent
      (by decide) rfl rfl).2.1⟩

/-- C10: for every request accepted by the filter with in-flight
measurement enabled, the trace records exactly two in-flight deltas, +1
then -1, both against exactly the label set captured when the deferred
decrement was registered — `initProps`, whose `Code` is still 0 — so the
in-flight counter nets to zero per label set; the post-dispatch assignment
of the recorded response status affects only the duration and size
recordings. -/
theorem C10_inflight_decrement_same_labels (ow : Otelware) (r : Request) (h : Handler)
    (hacc : accepts ow r = true) (hin : ow.disableMeasureInflight = false) :
    (initProps ow r).Code = 0
    ∧ inflightEvents (serveHTTP ow r h)
        = [(initProps ow r, 1), (initProps ow r, -1)]
    ∧ (h.panics = false →
        Event.recordDuration { initProps ow r with Code := (rrwRun h.actions).status }
          ∈ serveHTTP ow r h
        ∧ (ow.disableMeasureSize = false →
            Event.recordSize { initProps ow r with Code := (rrwRun h.actions).status }
              ((rrwRun h.actions).writtenBytes) ∈ serveHTTP ow r h)) := by
  rw [serveHTTP_accepted ow r h hacc]
  have hpost : List.filterMap inflightPair (postDispatchEvents ow r h) = [] := by
    simp only [postDispatchEvents, List.filterMap_append]
    split_ifs <;> simp [inflightPair]
  refine ⟨rfl, ?_, ?_⟩
  · simp only [instrumentedTrace, hin, inflightEvents, List.filterMap_append]
    split_ifs <;> simp_all [inflightPair]
  · intro hnp
    constructor
    · simp [instrumentedTrace, postDispatchEvents, hnp]
    · intro hsize
      simp [instrumentedTrace, postDispatchEvents, hnp, hsize]

/-- C10 witness: concrete instantiation — the two in-flight recordings of a
request carry the identical label set with status code 0, although the
handler wrote status 200. -/
theorem C10_inflight_labels_witness :
    accepts owPlain reqUsers = true
    ∧ owPlain.disableMeasureInflight = false
    ∧ inflightEvents (serveHTTP owPlain reqUsers hTwoWrites)
        = [(initProps owPlain reqUsers, 1), (initProps owPlain reqUsers, -1)] :=
  ⟨by decide, by decide,
    (C10_inflight_decrement_same_labels owPlain reqUsers hTwoWrites
      (by decide) (by decide)).2.1⟩

end Otelchi

